import Mathlib

/-!
Verification of the pros-rs RTOS/device layer against its specification.

The definitions below are a shallow embedding of the Rust sources:
  - src/src/rtos/mod.rs       (Mutex, MutexGuard, Semaphore)
  - src/src/rtos/tasks.rs     (TaskState conversion)
  - src/src/rtos/time.rs      (Interval actions)
  - src/src/rtos/action.rs    (Poll, NextSleep)
  - src/src/devices/mod.rs    (DeviceError classifiers, Devices arena)
  - src/macros/src/lib.rs     (the code generated by the select combinator)

Machine integers are modelled as Nat/Int; kernel state (mutex held flag,
semaphore count, the port arena) is passed explicitly. Code whose behaviour
differs between debug and release builds takes a BuildMode argument:
`debug_assert!` executes its argument (and asserts it) in debug mode and is
compiled out, argument included, in release mode; `cfg!(debug_assertions)`
selects the branch.
-/

namespace Pros

/-- Rust build configuration: whether debug assertions are compiled in. -/
inductive BuildMode
  | debug
  | release
deriving DecidableEq, Repr

/-- Outcome of Rust code that can panic: either a value or a panic. -/
inductive PRes (α : Type)
  | ok (a : α)
  | panicked
deriving DecidableEq, Repr

/-- Rust `Result<α, ε>`. -/
inductive RResult (ε : Type) (α : Type)
  | ok (a : α)
  | err (e : ε)
deriving DecidableEq, Repr

/-- The per-class device error enum from src/src/devices/mod.rs. -/
inductive DeviceError
  | ResourceInUse
  | PortRange
  | PortNotDistance
  | PortNotMotor
  | PortNotIMU
  | StillCalibrating
  | PortNotRotationSensor
  | PortNotVisionSensor
  | VisionUnknown
  | VisionObjectsDeficit
  | PortNotADI
  | OutOfMemory
  | Unknown
deriving DecidableEq, Repr

/-- errno constants as used by the newlib C library the firmware links. -/
def ENXIO : Int := 6

def ENOMEM : Int := 12

def EACCES : Int := 13

def ENODEV : Int := 19

/-- DeviceError::errno_generic (src/src/devices/mod.rs:57-69): EACCES maps to
ResourceInUse, ENXIO to PortRange, ENOMEM to OutOfMemory; any other errno
panics under cfg!(debug_assertions) and yields Unknown in release. -/
def DeviceError.errno_generic (mode : BuildMode) (e : Int) : PRes DeviceError :=
  if e = EACCES then PRes.ok DeviceError.ResourceInUse
  else if e = ENXIO then PRes.ok DeviceError.PortRange
  else if e = ENOMEM then PRes.ok DeviceError.OutOfMemory
  else
    match mode with
    | BuildMode.debug => PRes.panicked
    | BuildMode.release => PRes.ok DeviceError.Unknown

/-- DeviceError::errno_motor (src/src/devices/mod.rs:84-95): ENODEV maps to
PortNotMotor, ENXIO to PortRange; any other errno panics under
cfg!(debug_assertions) and yields Unknown in release. -/
def DeviceError.errno_motor (mode : BuildMode) (e : Int) : PRes DeviceError :=
  if e = ENODEV then PRes.ok DeviceError.PortNotMotor
  else if e = ENXIO then PRes.ok DeviceError.PortRange
  else
    match mode with
    | BuildMode.debug => PRes.panicked
    | BuildMode.release => PRes.ok DeviceError.Unknown

/-- State of one kernel mutex: whether it is currently held. The claims under
study concern a single task locking, unlocking and relocking, so no owner
field is needed: nobody else can release the mutex. -/
structure KMutex where
  held : Bool
deriving DecidableEq, Repr

/-- bindings::mutex_take in the single-task scenario: with no other task able
to release the mutex, the take succeeds (for any timeout) exactly when the
mutex is free, and a take of a held mutex times out / blocks, reported as
false. -/
def mutex_take (m : KMutex) : Bool × KMutex :=
  if m.held then (false, m) else (true, ⟨true⟩)

/-- bindings::mutex_give: releases a held mutex and reports success; giving a
mutex that is not held fails. -/
def mutex_give (m : KMutex) : Bool × KMutex :=
  if m.held then (true, ⟨false⟩) else (false, m)

/-- Mutex::lock_timeout (src/src/rtos/mod.rs:111-117): Some guard exactly when
the kernel take succeeded. The guard itself carries no data we need to model,
so it is Unit here. -/
def Mutex.lock_timeout (m : KMutex) : Option Unit × KMutex :=
  let r := mutex_take m
  (if r.1 then some () else none, r.2)

/-- MutexGuard::drop (src/src/rtos/mod.rs:177-181). Its entire body is
`debug_assert!(self.lock.mutex.give())`: in a debug build the give runs and
its result is asserted true; with debug assertions compiled out the whole
expression — the give call included — is absent, so the kernel mutex is not
touched. -/
def MutexGuard.drop (mode : BuildMode) (m : KMutex) : PRes Unit × KMutex :=
  match mode with
  | BuildMode.debug =>
    let r := mutex_give m
    (if r.1 then PRes.ok () else PRes.panicked, r.2)
  | BuildMode.release => (PRes.ok (), m)

/-- Number of bindings::mutex_give calls performed by MutexGuard::drop in each
build configuration (read off src/src/rtos/mod.rs:177-181). -/
def MutexGuard.dropGiveCalls (mode : BuildMode) : Nat :=
  match mode with
  | BuildMode.debug => 1
  | BuildMode.release => 0

/-- State of one kernel counting semaphore. -/
structure KSem where
  count : Nat
  maxCount : Nat
deriving DecidableEq, Repr

/-- The kernel give/post operation on a counting-semaphore handle (what the
`bindings::mutex_give(self.ptr)` call in Semaphore::post reaches: in the PROS
kernel both mutexes and semaphores are queue-backed and give increments a
counting semaphore): increments the count if below the maximum and reports
success, otherwise leaves it and reports failure. -/
def sem_give (s : KSem) : Bool × KSem :=
  if s.count < s.maxCount then (true, ⟨s.count + 1, s.maxCount⟩) else (false, s)

/-- Semaphore::post (src/src/rtos/mod.rs:217-223). The source reads:
`if unsafe { bindings::mutex_give(self.ptr) } { Err(DeviceError::errno_generic()) } else { Ok(()) }`
so the error branch is taken exactly when the kernel give returned true.
`e` is the thread-local errno value read by errno_generic. -/
def Semaphore.post (mode : BuildMode) (e : Int) (s : KSem) :
    PRes (RResult DeviceError Unit) × KSem :=
  let r := sem_give s
  if r.1 then
    match DeviceError.errno_generic mode e with
    | PRes.ok d => (PRes.ok (RResult.err d), r.2)
    | PRes.panicked => (PRes.panicked, r.2)
  else (PRes.ok (RResult.ok ()), r.2)

/-- C1: the claim states that dropping a guard releases the kernel mutex in
every build configuration, so a subsequent lock succeeds. Evaluating the code
at the failing configuration: in a release build, dropping the guard performs
zero give calls, the mutex stays held and a second lock fails, while the same
sequence in a debug build succeeds. -/
theorem c1_release_guard_drop_never_releases :
    (Mutex.lock_timeout ⟨false⟩).1 = some () ∧
    MutexGuard.dropGiveCalls BuildMode.release = 0 ∧
    ((MutexGuard.drop BuildMode.release (Mutex.lock_timeout ⟨false⟩).2).2).held = true ∧
    (Mutex.lock_timeout
      (MutexGuard.drop BuildMode.release (Mutex.lock_timeout ⟨false⟩).2).2).1 = none ∧
    (Mutex.lock_timeout
      (MutexGuard.drop BuildMode.debug (Mutex.lock_timeout ⟨false⟩).2).2).1 = some () := by
  decide

/-- C2: the claim states that post() increments the count and returns Ok(()),
erring only at the maximum. Evaluating the code: on a semaphore below its
maximum (count 0 of 2) the kernel give succeeds and increments the count, yet
post returns Err (here errno EACCES classifies as ResourceInUse); on a
semaphore at its maximum the give fails, yet post returns Ok(()). The result
mapping is inverted relative to the claim. -/
theorem c2_post_reports_error_on_success :
    (Semaphore.post BuildMode.release EACCES ⟨0, 2⟩).2 = ⟨1, 2⟩ ∧
    (Semaphore.post BuildMode.release EACCES ⟨0, 2⟩).1 =
      PRes.ok (RResult.err DeviceError.ResourceInUse) ∧
    (Semaphore.post BuildMode.release EACCES ⟨2, 2⟩).1 = PRes.ok (RResult.ok ()) := by
  decide

/-- Poll from src/src/rtos/action.rs: either the action resolved to a value or
it is still waiting. -/
inductive Poll (α : Type)
  | Complete (x : α)
  | Waiting
deriving DecidableEq, Repr

/-- NextSleep from src/src/rtos/action.rs. Durations are modelled as Nat
milliseconds. -/
inductive NextSleep
  | Never
  | Notification (timeout : Option Nat)
  | Timestamp (t : Nat)
deriving DecidableEq, Repr

/-- Result of one evaluation of the block generated by action_inner
(src/macros/src/lib.rs:171-180): either `__PrivResult::_i(x)` — arm `i`
completed with value `x`, so that arm's pattern is bound and its expression
runs — or `__PrivResult::None`, in which case the final match runs the
default expression (unit when none was written). -/
inductive SelectResult (α : Type)
  | arm (idx : Nat) (val : α)
  | fallThrough
deriving DecidableEq, Repr

/-- The poll phase generated at src/macros/src/lib.rs:118-126: one match per
arm, in declaration order, returning `__PrivResult::_i(x)` at the first poll
that yields Complete. Arms after the first complete one are not polled. -/
def pollFirst {α : Type} : List (Poll α) → Option (Nat × α)
  | [] => none
  | Poll.Complete x :: _ => some (0, x)
  | Poll.Waiting :: rest => (pollFirst rest).map (fun p => (p.1 + 1, p.2))

/-- The sleep phase generated at src/macros/src/lib.rs:128-147: a fold
producing nested matches, outermost on arm 0. An arm whose next() is Never
defers to the next arm's match; the first arm reporting anything else has
that hint slept on; when every arm reports Never the innermost match returns
`__PrivResult::None` without sleeping. This returns the hint slept on, if
any. -/
def sleepChoice : List NextSleep → Option NextSleep
  | [] => none
  | NextSleep.Never :: rest => sleepChoice rest
  | NextSleep.Notification t :: _ => some (NextSleep.Notification t)
  | NextSleep.Timestamp t :: _ => some (NextSleep.Timestamp t)

/-- One evaluation of the whole generated select block: the `__result`
closure polls the arms in declaration order; on the first Complete the final
match runs that arm. Otherwise the nested next() matches sleep at most once
(on the hint returned by sleepChoice), after which the closure returns
`__PrivResult::None` — there is no loop back to the poll phase — and the
final match runs the default. The second component lists the sleep calls
performed, in order. -/
def runSelect {α : Type} (polls : List (Poll α)) (nexts : List NextSleep) :
    SelectResult α × List NextSleep :=
  match pollFirst polls with
  | some ix => (SelectResult.arm ix.1 ix.2, [])
  | none =>
    match sleepChoice nexts with
    | some n => (SelectResult.fallThrough, [n])
    | none => (SelectResult.fallThrough, [])

/-- Smallest element of a list of Nat, if any. -/
def minimumNat : List Nat → Option Nat
  | [] => none
  | t :: rest =>
    match minimumNat rest with
    | none => some t
    | some m => some (Nat.min t m)

/-- Modelled from the claim's words, not from the source: the sleep C3
describes — the smallest Timestamp among all arms reporting one, otherwise a
Notification if some arm reports one, otherwise nothing. Compared against
sleepChoice, the choice the generated code actually makes. -/
def claimSleepChoice (ns : List NextSleep) : Option NextSleep :=
  match minimumNat (ns.filterMap fun n =>
      match n with
      | NextSleep.Timestamp t => some t
      | _ => none) with
  | some t => some (NextSleep.Timestamp t)
  | none =>
    ns.find? fun n =>
      match n with
      | NextSleep.Notification _ => true
      | _ => false

/-- The Interval timer from src/src/rtos/time.rs:159-213, instants in
microseconds. -/
structure Interval where
  period : Nat
  last : Nat
deriving DecidableEq, Repr

/-- IntervalAction::poll (src/src/rtos/time.rs:189-198): Waiting while
`(last + period).checked_sub_instant(now)` is some, i.e. while
now ≤ last + period; Complete once now has passed the deadline. -/
def Interval.pollAt (iv : Interval) (now : Nat) : Poll Unit :=
  if now ≤ iv.last + iv.period then Poll.Waiting else Poll.Complete ()

/-- IntervalAction::next (src/src/rtos/time.rs:202-208): a Timestamp of the
remaining time to the deadline. (The source unwraps the checked subtraction;
next is only invoked on an incomplete arm, where now ≤ last + period, and on
that domain Nat subtraction agrees with it.) -/
def Interval.nextAt (iv : Interval) (now : Nat) : NextSleep :=
  NextSleep.Timestamp (iv.last + iv.period - now)

/-- A pure condition arm in the style of CompetitionState::task_done's
TaskDoneAction (src/src/rtos/tasks.rs:296-336): poll reports Complete once
the watched condition holds — here, once `now` is strictly past `doneAfter` —
and is Waiting before that. -/
def condDonePoll (doneAfter : Nat) (now : Nat) : Poll Unit :=
  if doneAfter < now then Poll.Complete () else Poll.Waiting

/-- TaskDoneAction::next (src/src/rtos/tasks.rs:330-332) is always Never. -/
def condDoneNext : NextSleep := NextSleep.Never

/-- If arm `i` polls Complete and every earlier arm polls Waiting, the poll
phase stops at arm `i`. -/
theorem pollFirst_eq_of_first {α : Type} (ps : List (Poll α)) (i : Nat) (x : α)
    (hget : ps[i]? = some (Poll.Complete x))
    (hbefore : ∀ j, j < i → ps[j]? = some Poll.Waiting) :
    pollFirst ps = some (i, x) := by
  induction ps generalizing i with
  | nil => simp at hget
  | cons head tail ih =>
    cases i with
    | zero =>
      simp at hget
      rw [hget]
      rfl
    | succ i' =>
      have h0 := hbefore 0 (Nat.succ_pos i')
      simp at h0
      subst h0
      simp only [List.getElem?_cons_succ] at hget
      have := ih i' hget (fun j hj => by
        have := hbefore (j + 1) (Nat.succ_lt_succ hj)
        simpa using this)
      simp [pollFirst, this]

/-- If every arm polls Waiting, the poll phase finds nothing. -/
theorem pollFirst_eq_none {α : Type} (ps : List (Poll α))
    (h : ∀ p ∈ ps, p = Poll.Waiting) : pollFirst ps = none := by
  induction ps with
  | nil => rfl
  | cons head tail ih =>
    have hh := h head (by simp)
    subst hh
    have := ih (fun p hp => h p (by simp [hp]))
    simp [pollFirst, this]

/-- If arm `i` reports a non-Never hint and every earlier arm reports Never,
the nested sleep matches sleep on arm `i`'s hint. -/
theorem sleepChoice_eq_of_first (ns : List NextSleep) (i : Nat) (n : NextSleep)
    (hget : ns[i]? = some n) (hn : n ≠ NextSleep.Never)
    (hbefore : ∀ j, j < i → ns[j]? = some NextSleep.Never) :
    sleepChoice ns = some n := by
  induction ns generalizing i with
  | nil => simp at hget
  | cons head tail ih =>
    cases i with
    | zero =>
      simp at hget
      subst hget
      cases head with
      | Never => exact absurd rfl hn
      | Notification t => rfl
      | Timestamp t => rfl
    | succ i' =>
      have h0 := hbefore 0 (Nat.succ_pos i')
      simp at h0
      subst h0
      simp only [List.getElem?_cons_succ] at hget
      have := ih i' hget (fun j hj => by
        have := hbefore (j + 1) (Nat.succ_lt_succ hj)
        simpa using this)
      simpa [sleepChoice] using this

/-- If every arm reports Never, the nested sleep matches reach the innermost
`return __PrivResult::None` without any sleep call. -/
theorem sleepChoice_eq_none (ns : List NextSleep)
    (h : ∀ n ∈ ns, n = NextSleep.Never) : sleepChoice ns = none := by
  induction ns with
  | nil => rfl
  | cons head tail ih =>
    have hh := h head (by simp)
    subst hh
    exact ih (fun n hn => h n (by simp [hn]))

/-- C3 counterexample: with two incomplete arms whose hints are
Timestamp 100 and Timestamp 10, the generated select sleeps on Timestamp 100
— the first non-Never hint in declaration order — while the claim's choice
(the smallest Timestamp among all arms reporting one) is Timestamp 10. -/
theorem c3_not_smallest_timestamp :
    (runSelect ([Poll.Waiting, Poll.Waiting] : List (Poll Nat))
        [NextSleep.Timestamp 100, NextSleep.Timestamp 10]).2 =
      [NextSleep.Timestamp 100] ∧
    claimSleepChoice [NextSleep.Timestamp 100, NextSleep.Timestamp 10] =
      some (NextSleep.Timestamp 10) ∧
    NextSleep.Timestamp 100 ≠ NextSleep.Timestamp 10 := by
  decide

/-- C3 amended: when no arm polls Complete, the combinator examines the arms'
next() hints in declaration order and sleeps once on the hint of the
earliest-declared arm reporting anything other than Never — whether Timestamp
or Notification — ignoring all later arms' hints; arms reporting Never are
skipped and contribute no wake condition. -/
theorem c3_sleeps_on_first_non_never_hint {α : Type} (polls : List (Poll α))
    (nexts : List NextSleep) (i : Nat) (n : NextSleep)
    (hp : pollFirst polls = none)
    (hget : nexts[i]? = some n) (hn : n ≠ NextSleep.Never)
    (hbefore : ∀ j, j < i → nexts[j]? = some NextSleep.Never) :
    runSelect polls nexts = (SelectResult.fallThrough, [n]) := by
  unfold runSelect
  rw [hp, sleepChoice_eq_of_first nexts i n hget hn hbefore]

/-- Witness for C3's amended theorem at a concrete input: arm 0 Never, arm 1
Timestamp 7, arm 2 Timestamp 3 — the select sleeps on Timestamp 7. -/
theorem c3_sleeps_on_first_non_never_hint_witness :
    runSelect ([Poll.Waiting, Poll.Waiting, Poll.Waiting] : List (Poll Nat))
        [NextSleep.Never, NextSleep.Timestamp 7, NextSleep.Timestamp 3] =
      (SelectResult.fallThrough, [NextSleep.Timestamp 7]) :=
  c3_sleeps_on_first_non_never_hint _ _ 1 (NextSleep.Timestamp 7)
    (by decide) (by decide) (by decide) (by decide)

/-- C4 counterexample, the claim's own scenario: a periodic arm with period 10
(Interval with last = 0) and a condition arm that becomes true strictly after
two periods (after time 20), started at time 0. The claim predicts two
sleeps of about one period each followed by completion of the condition arm
on a third poll; the generated code instead performs exactly one sleep
(Timestamp 10) and then falls through to the default without re-polling —
even though the condition arm would indeed poll Complete at time 21. -/
theorem c4_no_repoll_counterexample :
    runSelect [Interval.pollAt ⟨10, 0⟩ 0, condDonePoll 20 0]
        [Interval.nextAt ⟨10, 0⟩ 0, condDoneNext] =
      (SelectResult.fallThrough, [NextSleep.Timestamp 10]) ∧
    condDonePoll 20 21 = Poll.Complete () := by
  decide

/-- C4 amended: when no arm polls Complete on the first (and only) poll pass,
the generated select performs at most one sleep and then evaluates the
default expression (unit when no default arm was written); it never returns
to the poll phase. Re-polling happens only if the caller wraps the select in
a loop of its own. -/
theorem c4_single_sleep_then_default {α : Type} (polls : List (Poll α))
    (nexts : List NextSleep) (hp : pollFirst polls = none) :
    (runSelect polls nexts).1 = SelectResult.fallThrough ∧
    (runSelect polls nexts).2.length ≤ 1 := by
  unfold runSelect
  rw [hp]
  cases sleepChoice nexts <;> simp

/-- Witness for C4's amended theorem at the claim's scenario input. -/
theorem c4_single_sleep_then_default_witness :
    (runSelect [Interval.pollAt ⟨10, 0⟩ 0, condDonePoll 20 0]
        [Interval.nextAt ⟨10, 0⟩ 0, condDoneNext]).1 = SelectResult.fallThrough ∧
    (runSelect [Interval.pollAt ⟨10, 0⟩ 0, condDonePoll 20 0]
        [Interval.nextAt ⟨10, 0⟩ 0, condDoneNext]).2.length ≤ 1 :=
  c4_single_sleep_then_default _ _ (by decide)

/-- C6: the generated select polls the arms' Actions in declaration order and
the first poll returning Complete(x) wins: its value is bound and that arm's
branch runs, with no sleep performed. In particular when several arms are
simultaneously complete the earliest-declared one is taken (the hypothesis
constrains only the arms declared before `i`, so any later arm may also be
complete). -/
theorem c6_first_complete_arm_wins {α : Type} (polls : List (Poll α))
    (nexts : List NextSleep) (i : Nat) (x : α)
    (hget : polls[i]? = some (Poll.Complete x))
    (hbefore : ∀ j, j < i → polls[j]? = some Poll.Waiting) :
    runSelect polls nexts = (SelectResult.arm i x, []) := by
  unfold runSelect
  rw [pollFirst_eq_of_first polls i x hget hbefore]

/-- Witness for C6 at a concrete input: arms 1 and 2 are both complete; the
earliest-declared of them, arm 1, wins with its own value. -/
theorem c6_first_complete_arm_wins_witness :
    runSelect [Poll.Waiting, Poll.Complete 5, Poll.Complete 7]
        ([] : List NextSleep) = (SelectResult.arm 1 5, []) :=
  c6_first_complete_arm_wins _ _ 1 5 (by decide) (by decide)

/-- C7: a select in which every arm polls Waiting and every arm's next() is
Never runs the default branch with zero sleep calls — no livelock and no
blocking. -/
theorem c7_all_never_default_no_sleep {α : Type} (polls : List (Poll α))
    (nexts : List NextSleep)
    (hp : ∀ p ∈ polls, p = Poll.Waiting)
    (hn : ∀ n ∈ nexts, n = NextSleep.Never) :
    runSelect polls nexts = (SelectResult.fallThrough, []) := by
  unfold runSelect
  rw [pollFirst_eq_none polls hp, sleepChoice_eq_none nexts hn]

/-- Witness for C7 at a concrete two-arm input. -/
theorem c7_all_never_default_no_sleep_witness :
    runSelect ([Poll.Waiting, Poll.Waiting] : List (Poll Nat))
        [NextSleep.Never, NextSleep.Never] = (SelectResult.fallThrough, []) :=
  c7_all_never_default_no_sleep _ _ (by decide) (by decide)

/-- Port from src/src/ports.rs: a NonZeroU8 index. Nonzeroness is guaranteed
by the 1..=21 range check at every construction site modelled here. -/
structure Port where
  val : Nat
deriving DecidableEq, Repr

/-- Port::new (src/src/ports.rs:34-40): Some for 1..=21, None otherwise. -/
def Port.new (port : Nat) : Option Port :=
  if 1 ≤ port ∧ port ≤ 21 then some ⟨port⟩ else none

/-- The Devices arena (src/src/devices/mod.rs:229-240). The controller slots
play no role in the port claims but are part of the structure. The ports list
is zero indexed: slot k holds port k+1. -/
structure Devices where
  master_controller : Option Unit
  slave_controller : Option Unit
  ports : List (Option Port)
  triports : List (Option Port)
deriving DecidableEq, Repr

/-- Devices::new (src/src/devices/mod.rs:253-270): every slot filled, slot k
holding `Some(Port::new(k + 1).unwrap())` for k in 0..21 (and the eight
triport slots analogously). Since Port.new succeeds on this whole range,
`Some (unwrap (Port.new i))` is `Port.new i` itself. -/
def Devices.new : Devices where
  master_controller := some ()
  slave_controller := some ()
  ports := (List.range 21).map fun k => Port.new (k + 1)
  triports := (List.range 8).map fun k => some ⟨k + 1⟩

/-- Devices::take_port (src/src/devices/mod.rs:305-321). The range test
`within` guards the indexing; `debug_assert!(within, ...)` panics on an
out-of-range index in a debug build and is compiled out in release, after
which the explicit `if within` still routes out-of-range indices to
Err(PortRange). In range, `self.ports[index - 1].take()` removes and returns
the slot's token, or yields Err(ResourceInUse) if the slot is already empty.
(The `none` indexing case is unreachable for the 21-slot arena.) -/
def Devices.take_port (mode : BuildMode) (d : Devices) (index : Nat) :
    PRes (RResult DeviceError Port) × Devices :=
  if 1 ≤ index ∧ index ≤ 21 then
    match d.ports[index - 1]? with
    | some (some p) =>
      (PRes.ok (RResult.ok p), { d with ports := d.ports.set (index - 1) none })
    | some none => (PRes.ok (RResult.err DeviceError.ResourceInUse), d)
    | none => (PRes.panicked, d)
  else
    match mode with
    | BuildMode.debug => (PRes.panicked, d)
    | BuildMode.release => (PRes.ok (RResult.err DeviceError.PortRange), d)

/-- C5: for every index in 1..=21, the first take_port on a fresh arena
returns the token for exactly that port, and a second take_port at the same
index returns Err(ResourceInUse) — so no second token with the first one's
identity is ever produced. Holds in both build configurations. -/
theorem c5_second_take_resource_in_use (mode : BuildMode) :
    ∀ i, i < 22 → 1 ≤ i →
      (Devices.take_port mode Devices.new i).1 = PRes.ok (RResult.ok ⟨i⟩) ∧
      (Devices.take_port mode (Devices.take_port mode Devices.new i).2 i).1 =
        PRes.ok (RResult.err DeviceError.ResourceInUse) := by
  cases mode <;> decide

/-- Witness for C5 at index 3 in a release build. -/
theorem c5_second_take_resource_in_use_witness :
    (3 < 22 ∧ 1 ≤ 3) ∧
    (Devices.take_port BuildMode.release Devices.new 3).1 =
      PRes.ok (RResult.ok ⟨3⟩) ∧
    (Devices.take_port BuildMode.release
        (Devices.take_port BuildMode.release Devices.new 3).2 3).1 =
      PRes.ok (RResult.err DeviceError.ResourceInUse) :=
  ⟨by decide, c5_second_take_resource_in_use BuildMode.release 3 (by decide) (by decide)⟩

/-- C8: in a release build, take_port at any index outside 1..=21 returns
Err(PortRange) and leaves the arena — every slot — exactly as it was. -/
theorem c8_out_of_range_release (d : Devices) (i : Nat)
    (h : ¬(1 ≤ i ∧ i ≤ 21)) :
    Devices.take_port BuildMode.release d i =
      (PRes.ok (RResult.err DeviceError.PortRange), d) := by
  simp [Devices.take_port, h]

/-- Witness for C8 at index 22 on a fresh arena. -/
theorem c8_out_of_range_release_witness :
    ¬(1 ≤ 22 ∧ 22 ≤ 21) ∧
    Devices.take_port BuildMode.release Devices.new 22 =
      (PRes.ok (RResult.err DeviceError.PortRange), Devices.new) :=
  ⟨by decide, c8_out_of_range_release Devices.new 22 (by decide)⟩

/-- C9: in a release build the motor-class classifier is total and never
panics: ENODEV yields PortNotMotor, ENXIO yields PortRange, and every other
errno value yields Unknown. -/
theorem c9_errno_motor_release_total :
    DeviceError.errno_motor BuildMode.release ENODEV =
      PRes.ok DeviceError.PortNotMotor ∧
    DeviceError.errno_motor BuildMode.release ENXIO =
      PRes.ok DeviceError.PortRange ∧
    (∀ e : Int, e ≠ ENODEV → e ≠ ENXIO →
      DeviceError.errno_motor BuildMode.release e = PRes.ok DeviceError.Unknown) ∧
    (∀ e : Int, DeviceError.errno_motor BuildMode.release e ≠ PRes.panicked) := by
  refine ⟨by decide, by decide, ?_, ?_⟩
  · intro e h1 h2
    simp [DeviceError.errno_motor, h1, h2]
  · intro e
    by_cases h1 : e = ENODEV
    · simp [DeviceError.errno_motor, h1]
    · by_cases h2 : e = ENXIO
      · simp [DeviceError.errno_motor, h1, h2, ENODEV, ENXIO]
      · simp [DeviceError.errno_motor, h1, h2]

/-- Witness for C9 at the unrecognised errno 100. -/
theorem c9_errno_motor_release_total_witness :
    (100 : Int) ≠ ENODEV ∧ (100 : Int) ≠ ENXIO ∧
    DeviceError.errno_motor BuildMode.release 100 = PRes.ok DeviceError.Unknown :=
  ⟨by decide, by decide,
    c9_errno_motor_release_total.2.2.1 100 (by decide) (by decide)⟩

/-- TaskState from src/src/rtos/tasks.rs:131-150. -/
inductive TaskState
  | Running
  | Ready
  | Blocked
  | Suspended
  | Finished
  | Invalid
deriving DecidableEq, Repr

/-- The vendor task_state_e_t codes, a sequential C enum (values taken from
the vendor header the bindings are generated from; the bindings themselves
are not part of src/). -/
def E_TASK_STATE_RUNNING : Nat := 0

def E_TASK_STATE_READY : Nat := 1

def E_TASK_STATE_BLOCKED : Nat := 2

def E_TASK_STATE_SUSPENDED : Nat := 3

def E_TASK_STATE_DELETED : Nat := 4

def E_TASK_STATE_INVALID : Nat := 5

/-- From<task_state_e_t> for TaskState (src/src/rtos/tasks.rs:152-166): the
six recognised codes map to their variants and the catch-all arm is an
unconditional `panic!` — not gated on debug assertions, so the BuildMode
argument (present to state build-independence) is ignored. -/
def taskStateFrom (_mode : BuildMode) (f : Nat) : PRes TaskState :=
  if f = E_TASK_STATE_RUNNING then PRes.ok TaskState.Running
  else if f = E_TASK_STATE_READY then PRes.ok TaskState.Ready
  else if f = E_TASK_STATE_BLOCKED then PRes.ok TaskState.Blocked
  else if f = E_TASK_STATE_SUSPENDED then PRes.ok TaskState.Suspended
  else if f = E_TASK_STATE_DELETED then PRes.ok TaskState.Finished
  else if f = E_TASK_STATE_INVALID then PRes.ok TaskState.Invalid
  else PRes.panicked

/-- C10: in every build configuration, a task-state code outside the six
recognised values panics; in particular it is never mapped to the Invalid
variant or any other fallback value. -/
theorem c10_unknown_state_panics (mode : BuildMode) (c : Nat) (h : 6 ≤ c) :
    taskStateFrom mode c = PRes.panicked := by
  have h0 : c ≠ E_TASK_STATE_RUNNING := by simp [E_TASK_STATE_RUNNING]; omega
  have h1 : c ≠ E_TASK_STATE_READY := by simp [E_TASK_STATE_READY]; omega
  have h2 : c ≠ E_TASK_STATE_BLOCKED := by simp [E_TASK_STATE_BLOCKED]; omega
  have h3 : c ≠ E_TASK_STATE_SUSPENDED := by simp [E_TASK_STATE_SUSPENDED]; omega
  have h4 : c ≠ E_TASK_STATE_DELETED := by simp [E_TASK_STATE_DELETED]; omega
  have h5 : c ≠ E_TASK_STATE_INVALID := by simp [E_TASK_STATE_INVALID]; omega
  simp [taskStateFrom, h0, h1, h2, h3, h4, h5]

/-- Witness for C10 at code 7 in a release build. -/
theorem c10_unknown_state_panics_witness :
    6 ≤ 7 ∧ taskStateFrom BuildMode.release 7 = PRes.panicked :=
  ⟨by decide, c10_unknown_state_panics BuildMode.release 7 (by decide)⟩

end Pros
